import Mathlib

/-!
Verification of the ffonons repository core: the per-material phonon-document
cache (`ffonons/dbs/mp.py`), the result aggregator (`ffonons/phonon.py`) and
the metrics engine (`scripts/analysis/metrics_table.py`), shallowly embedded
in Lean 4 with explicit state passing for filesystem effects and `Except` for
Python exceptions.
-/

namespace Ffonons

/-! ## Document cache: `ffonons/dbs/mp.py` -/

/-- A pymatgen `Structure` as consumed by `get_mp_ph_docs`: only its
`formula` attribute (a string that may contain spaces) is used there. -/
structure Structure where
  formula : String
deriving DecidableEq, Repr

/-- The external `MPRester` client, modelled by the two endpoints
`get_mp_ph_docs` calls: `get_structure_by_material_id` (always succeeds with a
structure) and `materials.phonon.get_data_by_id` (the expensive phonon fetch,
which may fail with a network/compute error, modelled as `Except`).
`α` is the type of phonon-document content. -/
structure MPRester (α : Type) where
  get_structure_by_material_id : String → Structure
  get_data_by_id : String → Except String α

/-- The on-disk document store: an association list from file path to stored
document content. A later write for the same path shadows an earlier one. -/
structure FileSystem (α : Type) where
  files : List (String × α)
deriving DecidableEq, Repr

/-- Read a file: `none` when the path does not exist. -/
def FileSystem.read (fs : FileSystem α) (path : String) : Option α :=
  fs.files.lookup path

/-- `os.path.isfile`: the empty path is never a file. -/
def FileSystem.isfile (fs : FileSystem α) (path : String) : Bool :=
  if path = "" then false else (fs.read path).isSome

/-- Write a file (`zopen(..., mode="wt")` + `json.dump`). -/
def FileSystem.write (fs : FileSystem α) (path : String) (doc : α) : FileSystem α :=
  ⟨(path, doc) :: fs.files⟩

/-- Counts of external calls made so far — the call-counting stub the spec
asks idempotence to be verified with. -/
structure CallLog where
  n_struct_lookups : Nat
  n_fetches : Nat
deriving DecidableEq, Repr

/-- `str.replace(" ", "")` applied to a formula. -/
def removeSpaces (s : String) : String :=
  (s.toList.filter (fun c => c ≠ ' ')).asString

/-- The `id_formula` local of `get_mp_ph_docs`:
`f"{mp_id}-{struct.formula.replace(' ', '')}"`. -/
def id_formula (mpr : MPRester α) (mp_id : String) : String :=
  mp_id ++ "-" ++ removeSpaces (mpr.get_structure_by_material_id mp_id).formula

/-- The `mp_ph_doc_path` local of `get_mp_ph_docs`:
`f"{docs_dir}/{id_formula}.json.xz" if docs_dir else ""`. -/
def mp_doc_path (mpr : MPRester α) (mp_id docs_dir : String) : String :=
  if docs_dir ≠ "" then docs_dir ++ "/" ++ id_formula mpr mp_id ++ ".json.xz" else ""

/-- `get_mp_ph_docs` from `ffonons/dbs/mp.py`: look up the structure to derive
the storage key, then either decode the persisted entry or invoke the phonon
fetch and (when persistence is enabled) write the result. Returns the
doc-and-path result (errors from the fetch propagate), the filesystem after
the call, and the call log after the call. -/
def get_mp_ph_docs (mpr : MPRester α) (mp_id docs_dir : String)
    (fs : FileSystem α) (log : CallLog) :
    Except String (α × String) × FileSystem α × CallLog :=
  let log1 : CallLog := { log with n_struct_lookups := log.n_struct_lookups + 1 }
  let path := mp_doc_path mpr mp_id docs_dir
  if fs.isfile path then
    match fs.read path with
    | some doc => (.ok (doc, path), fs, log1)
    | none => (.error "corrupt cache entry", fs, log1)
  else
    match mpr.get_data_by_id mp_id with
    | .error e => (.error e, fs, { log1 with n_fetches := log1.n_fetches + 1 })
    | .ok doc =>
      let fs1 := if path ≠ "" then fs.write path doc else fs
      (.ok (doc, path), fs1, { log1 with n_fetches := log1.n_fetches + 1 })

/-- Two successive calls of `get_mp_ph_docs` for the same key, threading the
filesystem and the call log: the call-counting-stub experiment of the spec. -/
def get_mp_ph_docs_twice (mpr : MPRester α) (mp_id docs_dir : String)
    (fs : FileSystem α) (log : CallLog) :
    (Except String (α × String) × FileSystem α × CallLog) ×
      (Except String (α × String) × FileSystem α × CallLog) :=
  let r1 := get_mp_ph_docs mpr mp_id docs_dir fs log
  (r1, get_mp_ph_docs mpr mp_id docs_dir r1.2.1 r1.2.2)

/-! ## Result aggregator: the doc-loading loop of `ffonons/phonon.py` -/

/-- Greedy-regex key parse from the doc-loading loop of `phonon.py`:
`re.search(r".*/(mp-.*)-(.*)/phonon-bs-dos-(.*).json.gz", path)` applied to the
directory component `{mp_id}-{formula}` of a globbed entry. The group
`(mp-.*)` must start right after a path separator, so the directory has to
start with `mp-`, and the greedy inner `.*` puts the id/formula split at the
last dash. `none` models a failed match, on which the source's `.groups()`
raises `AttributeError`. -/
def strStartsWith (s pre : String) : Bool :=
  pre.toList.isPrefixOf s.toList

/-- Split a character list at the last occurrence of `'-'`:
`some (before, after)`, or `none` when there is no dash. -/
def splitLastDash : List Char → Option (List Char × List Char)
  | [] => none
  | c :: rest =>
    match splitLastDash rest with
    | some (a, b) => some (c :: a, b)
    | none => if c = '-' then some ([], rest) else none

def parse_id_formula (dir : String) : Option (String × String) :=
  if strStartsWith dir "mp-" then
    match splitLastDash (dir.toList.drop 3) with
    | some (idRest, formula) => some ("mp-" ++ idRest.asString, formula.asString)
    | none => none
  else none

/-- Group 3 of the regex: the globbed filename is
`phonon-bs-dos-{model}.json.gz`, so the model tag is the filename with the
14-character prefix and the 8-character suffix removed. -/
def parse_model_tag (file : String) : String :=
  (file.drop 14).dropRight 8

/-- The value stored in `all_docs[mp_id][model]`: the decoded doc content
merged with the parsed formula and material id
(`doc_dict | {formula_key: formula, id_key: mp_id}`). -/
structure DocRecord (α : Type) where
  doc : α
  formula : String
  material_id : String
deriving DecidableEq, Repr

/-- Python-dict assignment `d[k] = v` on an insertion-ordered association
list: overwrite in place if the key exists, otherwise append. -/
def dict_insert (d : List (String × β)) (k : String) (v : β) : List (String × β) :=
  match d with
  | [] => [(k, v)]
  | (k', v') :: rest =>
    if k' = k then (k, v) :: rest else (k', v') :: dict_insert rest k v

/-- `all_docs[mp_id][model] = value` on the outer `defaultdict(dict)`. -/
def docs_insert (docs : List (String × List (String × DocRecord α)))
    (mp_id model : String) (v : DocRecord α) :
    List (String × List (String × DocRecord α)) :=
  match docs with
  | [] => [(mp_id, [(model, v)])]
  | (k, inner) :: rest =>
    if k = mp_id then (k, dict_insert inner model v) :: rest
    else (k, inner) :: docs_insert rest mp_id model v

/-- One globbed cache entry `{FIGS_DIR}/{dir}/{file}` together with its
decoded content. The glob `**/phonon-bs-dos-*.json.gz` fixes the file shape;
the directory name is unconstrained. -/
structure StorageEntry (α : Type) where
  dir : String
  file : String
  doc : α
deriving DecidableEq, Repr

/-- The `load all docs` loop of `phonon.py`, with accumulator `acc` for
`all_docs`. A directory the key regex cannot parse makes the source raise
(`.groups()` on `None`), and the subsequent
`assert mp_id.startswith("mp-")` raises on failure; both are `.error`. -/
def load_all_docs (entries : List (StorageEntry α))
    (acc : List (String × List (String × DocRecord α))) :
    Except String (List (String × List (String × DocRecord α))) :=
  match entries with
  | [] => .ok acc
  | e :: rest =>
    match parse_id_formula e.dir with
    | none => .error ("MalformedKeyError: " ++ e.dir ++ "/" ++ e.file)
    | some (mp_id, formula) =>
      if strStartsWith mp_id "mp-" then
        load_all_docs rest
          (docs_insert acc mp_id (parse_model_tag e.file) ⟨e.doc, formula, mp_id⟩)
      else .error ("AssertionError: Invalid mp_id=" ++ mp_id)

/-- `materials_with_2 = [k for k, v in all_docs.items() if len(v) == 2]`. -/
def materials_with_2 (all_docs : List (String × List (String × DocRecord α))) :
    List String :=
  (all_docs.filter (fun kv => kv.2.length == 2)).map (fun kv => kv.1)

/-- `materials_with_3 = [k for k, v in all_docs.items() if len(v) == 3]`. -/
def materials_with_3 (all_docs : List (String × List (String × DocRecord α))) :
    List String :=
  (all_docs.filter (fun kv => kv.2.length == 3)).map (fun kv => kv.1)

/-- The same comprehension with a caller-specified source count `k`. -/
def materials_with_k (k : Nat)
    (all_docs : List (String × List (String × DocRecord α))) : List String :=
  (all_docs.filter (fun kv => kv.2.length == k)).map (fun kv => kv.1)

/-- Coverage fixture: material A has sources {ref, m1}, B has {ref, m1, m2}
and C has {ref}. -/
def coverage_example : List (String × List (String × DocRecord Nat)) :=
  [("A", [("ref", ⟨0, "F", "A"⟩), ("m1", ⟨1, "F", "A"⟩)]),
   ("B", [("ref", ⟨0, "F", "B"⟩), ("m1", ⟨1, "F", "B"⟩), ("m2", ⟨2, "F", "B"⟩)]),
   ("C", [("ref", ⟨0, "F", "C"⟩)])]

/-! ## Metrics engine: `scripts/analysis/metrics_table.py` -/

/-- Count of positions where the zipped boolean vectors read `(t, p)`. -/
def count_pairs (y_true y_pred : List Bool) (t p : Bool) : Nat :=
  ((y_true.zip y_pred).filter (fun ab => ab.1 == t && ab.2 == p)).length

/-- sklearn derives the label set from the values present in
`y_true ∪ y_pred`; the confusion matrix is 2×2 only when both boolean labels
occur somewhere. -/
def labels2 (y_true y_pred : List Bool) : Bool :=
  (y_true ++ y_pred).contains true && (y_true ++ y_pred).contains false

/-- Shape of sklearn `confusion_matrix` output on boolean inputs:
`two tn fp fn tp` when both labels occur, `one` (a 1×1 matrix) otherwise. -/
inductive ConfMat : Type
  | one : ConfMat
  | two : ℚ → ℚ → ℚ → ℚ → ConfMat
deriving DecidableEq, Repr

/-- One row of `normalize="true"` followed by sklearn's `np.nan_to_num`: an
empty row (0/0 = NaN twice) is coerced to zeros. -/
def norm_row (a b : Nat) : ℚ × ℚ :=
  if a + b = 0 then (0, 0)
  else ((a : ℚ) / ((a : ℚ) + (b : ℚ)), (b : ℚ) / ((a : ℚ) + (b : ℚ)))

/-- `confusion_matrix(y_true, y_pred, normalize="true")` specialised to
boolean vectors: pair counts, per-true-row division, NaN-to-zero. -/
def confusion_matrix_true (y_true y_pred : List Bool) : ConfMat :=
  if labels2 y_true y_pred then
    let r0 := norm_row (count_pairs y_true y_pred false false)
      (count_pairs y_true y_pred false true)
    let r1 := norm_row (count_pairs y_true y_pred true false)
      (count_pairs y_true y_pred true true)
    .two r0.1 r0.2 r1.1 r1.2
  else .one

/-- numpy float division of confusion-matrix entries. Both operands are
nonnegative and the numerator is bounded by the denominator, so a zero
denominator is always the `0/0` case, whose NaN result is `none`. -/
def nan_div (x y : ℚ) : Option ℚ :=
  if y = 0 then none else some (x / y)

/-- `f1 = 2 * (precision * recall) / (precision + recall)` under numpy NaN
propagation (again `0/0` is the only zero-denominator case). -/
def f1_of (p r : Option ℚ) : Option ℚ :=
  match p, r with
  | some p, some r => if p + r = 0 then none else some (2 * (p * r) / (p + r))
  | _, _ => none

/-- sklearn `accuracy_score`: the fraction of agreeing positions. -/
def accuracy_score (y_true y_pred : List Bool) : ℚ :=
  (((y_true.zip y_pred).filter (fun ab => ab.1 == ab.2)).length : ℚ) /
    ((y_true.zip y_pred).length : ℚ)

/-- sklearn `roc_auc_score` on a boolean score vector: `(TPR + TNR) / 2` from
the raw (unnormalized) counts; raises when `y_true` holds a single class. -/
def roc_auc_score (y_true y_pred : List Bool) : Except String ℚ :=
  let pos := (y_true.filter (fun b => b)).length
  let neg := (y_true.filter (fun b => !b)).length
  if pos = 0 ∨ neg = 0 then
    .error "ValueError: Only one class present in y_true"
  else
    .ok (((count_pairs y_true y_pred true true : ℚ) / (pos : ℚ) +
      (count_pairs y_true y_pred false false : ℚ) / (neg : ℚ)) / 2)

/-- One model's classification row (the columns written into `df_imag`);
`Option ℚ` values model floats that may be NaN. -/
structure ImagRow where
  precision : Option ℚ
  recall' : Option ℚ
  f1 : Option ℚ
  roc_auc : ℚ
  acc : ℚ
  fpr : ℚ
  fnr : ℚ
deriving DecidableEq, Repr

/-- The per-model classification block of `metrics_table.py`: confusion matrix
with `normalize="true"`, 2×2 destructuring (a ValueError on a 1×1 matrix), the
row-sum asserts, then the derived scores. Python exceptions are `.error`. -/
def imag_metrics_row (y_true y_pred : List Bool) : Except String ImagRow :=
  match confusion_matrix_true y_true y_pred with
  | .one => .error "ValueError: cannot unpack 1x1 confusion matrix"
  | .two tn fp fn tp =>
    if tn + fp ≠ 1 then .error "AssertionError: tn + fp != 1"
    else if fn + tp ≠ 1 then .error "AssertionError: fn + tp != 1"
    else
      let acc := accuracy_score y_true y_pred
      let precision := nan_div tp (tp + fp)
      let recl := nan_div tp (tp + fn)
      let f1 := f1_of precision recl
      match roc_auc_score y_true y_pred with
      | .error e => .error e
      | .ok auc => .ok ⟨precision, recl, f1, auc, acc, fp, fn⟩

/-- `df_dft[metric] - df_model[metric]` at one material: pandas
NaN-propagating subtraction (`none` = NaN / missing value). -/
def series_sub (dft model : String → Option ℚ) (i : String) : Option ℚ :=
  match dft i, model i with
  | some a, some b => some (a - b)
  | _, _ => none

/-- pandas `Series.mean()`: skips NaN and is itself NaN when no valid entries
remain. -/
def nanmean (xs : List (Option ℚ)) : Option ℚ :=
  let vals := xs.filterMap id
  if vals.length = 0 then none else some (vals.sum / (vals.length : ℚ))

/-- `ph_freq_mae = diff.abs().mean()` of the max-frequency regression loop. -/
def ph_freq_mae (dft model : String → Option ℚ) (idx : List String) : Option ℚ :=
  nanmean (idx.map (fun i => (series_sub dft model i).map (fun q => |q|)))

/-- `not_nan = diff.dropna().index`. -/
def not_nan_idx (dft model : String → Option ℚ) (idx : List String) : List String :=
  idx.filter (fun i => (series_sub dft model i).isSome)

/-- `series.loc[ids]`: the present values of the series at the given ids. -/
def series_values (s : String → Option ℚ) (ids : List String) : List ℚ :=
  ids.filterMap s

/-- sklearn `r2_score`: NaN (`none`) for fewer than two samples; the
zero-variance conventions follow sklearn (1 when the residual is also zero,
else 0). -/
def r2_score (y_true y_pred : List ℚ) : Option ℚ :=
  if y_true.length < 2 then none
  else
    let m := y_true.sum / (y_true.length : ℚ)
    let ss_res : ℚ := ((y_true.zip y_pred).map (fun p => (p.1 - p.2) ^ 2)).sum
    let ss_tot : ℚ := (y_true.map (fun y => (y - m) ^ 2)).sum
    if ss_tot = 0 then (if ss_res = 0 then some 1 else some 0)
    else some (1 - ss_res / ss_tot)

/-- `ph_freq_r2` of the regression loop: `r2_score` on the two series
restricted to `not_nan`. -/
def ph_freq_r2 (dft model : String → Option ℚ) (idx : List String) : Option ℚ :=
  r2_score (series_values dft (not_nan_idx dft model idx))
    (series_values model (not_nan_idx dft model idx))

/-- The materials where reference and model are both present, with their two
values — the intersection the spec's regression contract talks about. -/
def both_present (dft model : String → Option ℚ) : List String → List (ℚ × ℚ)
  | [] => []
  | i :: rest =>
    match dft i, model i with
    | some a, some b => (a, b) :: both_present dft model rest
    | _, _ => both_present dft model rest

/-- Written to the spec's words: `MAE = mean(|reference − model|)` over
exactly the materials where both values are present. -/
def spec_mae (dft model : String → Option ℚ) (idx : List String) : Option ℚ :=
  let diffs := (both_present dft model idx).map (fun p => |p.1 - p.2|)
  if diffs.length = 0 then none else some (diffs.sum / (diffs.length : ℚ))

/-- Regression fixture, reference side: 1, 2, 3 on materials a, b, c. -/
def regr_dft : String → Option ℚ := fun i =>
  if i = "a" then some 1 else if i = "b" then some 2 else
  if i = "c" then some 3 else none

/-- Regression fixture, model side: 1.5, 2, 2 on materials a, b, c. -/
def regr_model : String → Option ℚ := fun i =>
  if i = "a" then some (3 / 2) else if i = "b" then some 2 else
  if i = "c" then some 2 else none

/-- Regression fixture index. -/
def regr_idx : List String := ["a", "b", "c"]

/-- Full split of a character list on `'-'`. -/
def splitDashes : List Char → List (List Char)
  | [] => [[]]
  | c :: rest =>
    let r := splitDashes rest
    if c = '-' then [] :: r
    else
      match r with
      | h :: t => (c :: h) :: t
      | [] => [[c]]

/-- Digit-string to number; `none` on an empty or non-digit string
(`astype(int)` would raise there). -/
def charsToNatAux : List Char → Nat → Option Nat
  | [], acc => some acc
  | c :: rest, acc =>
    if c.isDigit then charsToNatAux rest (acc * 10 + (c.toNat - '0'.toNat))
    else none

/-- See `charsToNatAux`. -/
def charsToNat (cs : List Char) : Option Nat :=
  if cs = [] then none else charsToNatAux cs 0

/-- The export's sort key `idx.str.split("-").str[1].astype(int)`: the numeric
second dash-separated token of an mp-id (`mp-149` ↦ `149`). -/
def mp_id_num (s : String) : Option Nat :=
  ((splitDashes s.toList).get? 1).bind charsToNat

/-- Total version of the key for the sort relation (`0` when unparseable; the
sortedness statement only speaks about parseable ids). -/
def mp_id_key (s : String) : Nat :=
  (mp_id_num s).getD 0

/-- Ascending order on the numeric suffix. -/
def by_num_key (a b : String) : Prop :=
  mp_id_key a ≤ mp_id_key b

instance : DecidableRel by_num_key :=
  fun a b => Nat.decLe (mp_id_key a) (mp_id_key b)

instance : IsTotal String by_num_key :=
  ⟨fun a b => Nat.le_total (mp_id_key a) (mp_id_key b)⟩

instance : IsTrans String by_num_key :=
  ⟨fun _ _ _ h1 h2 => Nat.le_trans h1 h2⟩

/-- The columns selected for `phonon-analysis-mp-ids.csv`, in source order:
`[Key.formula, Key.supercell, Key.n_sites]` of `ffonons.enums.Key`. -/
inductive Key : Type
  | formula
  | supercell
  | n_sites
deriving DecidableEq, Repr

/-- The auxiliary export `phonon-analysis-mp-ids.csv`: row order is the id
list sorted ascending by the numeric-suffix key
(`sort_index(key=lambda idx: idx.str.split("-").str[1].astype(int))`), column
order the fixed literal selection. -/
def mp_ids_export (ids : List String) : List String × List Key :=
  (List.insertionSort by_num_key ids, [Key.formula, Key.supercell, Key.n_sites])

/-- A concrete client for the cache experiments: every material has formula
"Na Cl" and phonon content `7`. -/
def mprOk : MPRester Nat :=
  ⟨fun _ => ⟨"Na Cl"⟩, fun _ => .ok 7⟩

/-- A concrete client whose phonon fetch always fails. -/
def mprErr : MPRester Nat :=
  ⟨fun _ => ⟨"Na Cl"⟩, fun _ => .error "network down"⟩

theorem mp_doc_path_ne_empty (mpr : MPRester α) (mp_id docs_dir : String)
    (hdir : docs_dir ≠ "") : mp_doc_path mpr mp_id docs_dir ≠ "" := by
  intro h
  have hlen := congrArg String.length h
  simp only [mp_doc_path, if_pos hdir, String.length_append] at hlen
  have h1 : ("/" : String).length = 1 := rfl
  have h2 : (".json.xz" : String).length = 8 := rfl
  have h0 : ("" : String).length = 0 := rfl
  rw [h1, h2, h0] at hlen
  omega

/-- C1: with a persistent storage root, two `get_mp_ph_docs` calls for the same
key return identical document content; the phonon fetch runs exactly once (on
the first call), and the second call is a pure cache hit: it fetches nothing
and leaves storage unchanged. -/
theorem get_mp_ph_docs_idempotent {α : Type} (mpr : MPRester α) (mp_id docs_dir : String)
    (fs : FileSystem α) (log : CallLog) (doc : α)
    (hdir : docs_dir ≠ "")
    (hfetch : mpr.get_data_by_id mp_id = .ok doc)
    (hfresh : fs.read (mp_doc_path mpr mp_id docs_dir) = none) :
    (get_mp_ph_docs_twice mpr mp_id docs_dir fs log).1.1 =
        .ok (doc, mp_doc_path mpr mp_id docs_dir) ∧
      (get_mp_ph_docs_twice mpr mp_id docs_dir fs log).2.1 =
        .ok (doc, mp_doc_path mpr mp_id docs_dir) ∧
      (get_mp_ph_docs_twice mpr mp_id docs_dir fs log).2.2.1 =
        (get_mp_ph_docs_twice mpr mp_id docs_dir fs log).1.2.1 ∧
      (get_mp_ph_docs_twice mpr mp_id docs_dir fs log).1.2.2.n_fetches =
        log.n_fetches + 1 ∧
      (get_mp_ph_docs_twice mpr mp_id docs_dir fs log).2.2.2.n_fetches =
        log.n_fetches + 1 := by
  have hp : mp_doc_path mpr mp_id docs_dir ≠ "" :=
    mp_doc_path_ne_empty mpr mp_id docs_dir hdir
  have hfile1 : fs.isfile (mp_doc_path mpr mp_id docs_dir) = false := by
    simp [FileSystem.isfile, hfresh]
  have hcall1 : get_mp_ph_docs mpr mp_id docs_dir fs log =
      (.ok (doc, mp_doc_path mpr mp_id docs_dir),
        fs.write (mp_doc_path mpr mp_id docs_dir) doc,
        ⟨log.n_struct_lookups + 1, log.n_fetches + 1⟩) := by
    simp [get_mp_ph_docs, hfile1, hfetch, hp]
  have hread2 : (fs.write (mp_doc_path mpr mp_id docs_dir) doc).read
      (mp_doc_path mpr mp_id docs_dir) = some doc := by
    simp [FileSystem.read, FileSystem.write, List.lookup]
  have hfile2 : (fs.write (mp_doc_path mpr mp_id docs_dir) doc).isfile
      (mp_doc_path mpr mp_id docs_dir) = true := by
    simp [FileSystem.isfile, hread2, hp]
  have hcall2 : ∀ lg : CallLog,
      get_mp_ph_docs mpr mp_id docs_dir
          (fs.write (mp_doc_path mpr mp_id docs_dir) doc) lg =
        (.ok (doc, mp_doc_path mpr mp_id docs_dir),
          fs.write (mp_doc_path mpr mp_id docs_dir) doc,
          ⟨lg.n_struct_lookups + 1, lg.n_fetches⟩) := by
    intro lg
    simp [get_mp_ph_docs, hfile2, hread2]
  simp [get_mp_ph_docs_twice, hcall1, hcall2]

/-- C1 witness: a fresh cache, a client that returns content `7`; two calls
both return the content with its storage path, with exactly one fetch. -/
theorem get_mp_ph_docs_idempotent_witness :
    (get_mp_ph_docs_twice mprOk "mp-1" "data" ⟨[]⟩ ⟨0, 0⟩).1.1 =
        .ok (7, mp_doc_path mprOk "mp-1" "data") ∧
      (get_mp_ph_docs_twice mprOk "mp-1" "data" ⟨[]⟩ ⟨0, 0⟩).2.1 =
        .ok (7, mp_doc_path mprOk "mp-1" "data") ∧
      (get_mp_ph_docs_twice mprOk "mp-1" "data" ⟨[]⟩ ⟨0, 0⟩).2.2.1 =
        (get_mp_ph_docs_twice mprOk "mp-1" "data" ⟨[]⟩ ⟨0, 0⟩).1.2.1 ∧
      (get_mp_ph_docs_twice mprOk "mp-1" "data" ⟨[]⟩ ⟨0, 0⟩).1.2.2.n_fetches =
        (⟨0, 0⟩ : CallLog).n_fetches + 1 ∧
      (get_mp_ph_docs_twice mprOk "mp-1" "data" ⟨[]⟩ ⟨0, 0⟩).2.2.2.n_fetches =
        (⟨0, 0⟩ : CallLog).n_fetches + 1 :=
  get_mp_ph_docs_idempotent mprOk "mp-1" "data" ⟨[]⟩ ⟨0, 0⟩ 7
    (by decide) rfl rfl

/-- C6: with the empty-string storage root, a `get_mp_ph_docs` call leaves the
filesystem untouched, always invokes the phonon fetch, and returns exactly the
fetch outcome (with the empty path). -/
theorem get_mp_ph_docs_no_persistence {α : Type} (mpr : MPRester α) (mp_id : String)
    (fs : FileSystem α) (log : CallLog) :
    (get_mp_ph_docs mpr mp_id "" fs log).2.1 = fs ∧
      (get_mp_ph_docs mpr mp_id "" fs log).2.2.n_fetches = log.n_fetches + 1 ∧
      (get_mp_ph_docs mpr mp_id "" fs log).1 =
        (mpr.get_data_by_id mp_id).map (fun d => (d, "")) := by
  have hpath : mp_doc_path mpr mp_id "" = "" := by simp [mp_doc_path]
  cases hfetch : mpr.get_data_by_id mp_id <;>
    simp [get_mp_ph_docs, FileSystem.isfile, hpath, hfetch, Except.map]

/-- C7: on a cache miss, if the phonon fetch fails then the error propagates
unchanged and no cache entry is written (the filesystem is unchanged). -/
theorem get_mp_ph_docs_fetch_error {α : Type} (mpr : MPRester α) (mp_id docs_dir : String)
    (fs : FileSystem α) (log : CallLog) (e : String)
    (hmiss : fs.isfile (mp_doc_path mpr mp_id docs_dir) = false)
    (herr : mpr.get_data_by_id mp_id = .error e) :
    (get_mp_ph_docs mpr mp_id docs_dir fs log).1 = .error e ∧
      (get_mp_ph_docs mpr mp_id docs_dir fs log).2.1 = fs := by
  simp [get_mp_ph_docs, hmiss, herr]

/-- C7 witness: a failing fetch on an empty cache propagates its error and
writes nothing. -/
theorem get_mp_ph_docs_fetch_error_witness :
    (get_mp_ph_docs mprErr "mp-1" "data" ⟨[]⟩ ⟨0, 0⟩).1 = .error "network down" ∧
      (get_mp_ph_docs mprErr "mp-1" "data" ⟨[]⟩ ⟨0, 0⟩).2.1 = (⟨[]⟩ : FileSystem Nat) :=
  get_mp_ph_docs_fetch_error mprErr "mp-1" "data" ⟨[]⟩ ⟨0, 0⟩ "network down"
    (by decide) rfl

/-- C10: every `get_mp_ph_docs` call — cache hit, miss, failed fetch or
disabled persistence alike — performs exactly one structure lookup to derive
the storage key; only the phonon fetch is ever skipped. -/
theorem get_mp_ph_docs_always_struct_lookup {α : Type} (mpr : MPRester α)
    (mp_id docs_dir : String) (fs : FileSystem α) (log : CallLog) :
    (get_mp_ph_docs mpr mp_id docs_dir fs log).2.2.n_struct_lookups =
      log.n_struct_lookups + 1 := by
  by_cases hf : fs.isfile (mp_doc_path mpr mp_id docs_dir) = true
  · rcases hread : fs.read (mp_doc_path mpr mp_id docs_dir) with _ | d <;>
      simp [get_mp_ph_docs, hf, hread]
  · rcases hfetch : mpr.get_data_by_id mp_id with e | d <;>
      simp [get_mp_ph_docs, hf, hfetch]

/-- C5: if any globbed storage entry has a directory key that does not parse
into the `(material_id, formula)` shape, the doc-loading loop aborts with an
error — it never silently skips the entry. -/
theorem load_all_docs_rejects_malformed {α : Type} (entries : List (StorageEntry α))
    (acc : List (String × List (String × DocRecord α))) (e : StorageEntry α)
    (hmem : e ∈ entries) (hbad : parse_id_formula e.dir = none) :
    ∃ msg, load_all_docs entries acc = .error msg := by
  induction entries generalizing acc with
  | nil => cases hmem
  | cons e' rest ih =>
    rcases List.mem_cons.mp hmem with rfl | hmem'
    · exact ⟨"MalformedKeyError: " ++ e.dir ++ "/" ++ e.file,
        by simp [load_all_docs, hbad]⟩
    · cases hp : parse_id_formula e'.dir with
      | none => exact ⟨"MalformedKeyError: " ++ e'.dir ++ "/" ++ e'.file,
          by simp [load_all_docs, hp]⟩
      | some pr =>
        obtain ⟨mp_id, formula⟩ := pr
        by_cases hstart : strStartsWith mp_id "mp-" = true
        · obtain ⟨msg, hmsg⟩ :=
            ih (docs_insert acc mp_id (parse_model_tag e'.file)
              ⟨e'.doc, formula, mp_id⟩) hmem'
          exact ⟨msg, by simpa [load_all_docs, hp, hstart] using hmsg⟩
        · exact ⟨"AssertionError: Invalid mp_id=" ++ mp_id,
            by simp [load_all_docs, hp, hstart]⟩

/-- C5 witness: the entry `garbage/phonon-bs-dos-x.json.gz` (no
`{material_id}-{formula}` shape) makes aggregation fail. -/
theorem load_all_docs_rejects_malformed_witness :
    ∃ msg, load_all_docs [(⟨"garbage", "phonon-bs-dos-x.json.gz", 0⟩ : StorageEntry Nat)] []
      = .error msg :=
  load_all_docs_rejects_malformed _ [] ⟨"garbage", "phonon-bs-dos-x.json.gz", 0⟩
    (List.mem_singleton.mpr rfl) (by decide)

/-- C8: the coverage filter keeps exactly the materials with exactly `k`
sources; on the fixture (A: {ref, m1}, B: {ref, m1, m2}, C: {ref}) the
"exactly 2" filter yields {A} and the "exactly 3" filter yields {B}. -/
theorem coverage_filter_exact :
    (∀ (α : Type) (k : Nat) (docs : List (String × List (String × DocRecord α)))
        (m : String),
        m ∈ materials_with_k k docs ↔ ∃ srcs, (m, srcs) ∈ docs ∧ srcs.length = k) ∧
      (∀ (α : Type) (docs : List (String × List (String × DocRecord α))),
        materials_with_2 docs = materials_with_k 2 docs ∧
          materials_with_3 docs = materials_with_k 3 docs) ∧
      materials_with_2 coverage_example = ["A"] ∧
      materials_with_3 coverage_example = ["B"] := by
  refine ⟨?_, fun α docs => ⟨rfl, rfl⟩, rfl, rfl⟩
  intro α k docs m
  simp only [materials_with_k, List.mem_map, List.mem_filter]
  constructor
  · rintro ⟨⟨m', srcs⟩, ⟨hmem, hlen⟩, rfl⟩
    exact ⟨srcs, hmem, by simpa using hlen⟩
  · rintro ⟨srcs, hmem, hlen⟩
    exact ⟨(m, srcs), ⟨hmem, by simp [hlen]⟩, rfl⟩

theorem norm_row_sum (a b : Nat) (h : a + b ≠ 0) :
    (norm_row a b).1 + (norm_row a b).2 = 1 := by
  have hq : (a : ℚ) + (b : ℚ) ≠ 0 := by
    rw [← Nat.cast_add]
    exact_mod_cast h
  rw [norm_row, if_neg h]
  field_simp

theorem norm_row_zero (a b : Nat) (h : a + b = 0) : norm_row a b = (0, 0) := by
  rw [norm_row, if_pos h]

theorem norm_row_snd_zero (a : Nat) : (norm_row a 0).2 = 0 := by
  rw [norm_row]
  split <;> simp

/-- Inversion for a 2×2 result of `confusion_matrix_true`: the four entries
are the row-normalized pair counts. -/
theorem confusion_two_eq (y_true y_pred : List Bool) (tn fp fn tp : ℚ)
    (h : confusion_matrix_true y_true y_pred = .two tn fp fn tp) :
    tn = (norm_row (count_pairs y_true y_pred false false)
        (count_pairs y_true y_pred false true)).1 ∧
      fp = (norm_row (count_pairs y_true y_pred false false)
        (count_pairs y_true y_pred false true)).2 ∧
      fn = (norm_row (count_pairs y_true y_pred true false)
        (count_pairs y_true y_pred true true)).1 ∧
      tp = (norm_row (count_pairs y_true y_pred true false)
        (count_pairs y_true y_pred true true)).2 := by
  unfold confusion_matrix_true at h
  by_cases hl : labels2 y_true y_pred = true
  · rw [if_pos hl] at h
    injection h with h1 h2 h3 h4
    exact ⟨h1.symm, h2.symm, h3.symm, h4.symm⟩
  · rw [if_neg (by simpa using hl)] at h
    cases h

/-- C2 counterexample: for reference [True, True] and model [False, False]
the per-model block raises — `nan_to_num` turns the empty false-row into
zeros, so the script's own `assert tn + fp == 1` fails with an
AssertionError before precision or recall is ever computed. -/
theorem imag_metrics_assert_error :
    imag_metrics_row [true, true] [false, false] =
      .error "AssertionError: tn + fp != 1" := by
  simp [imag_metrics_row, confusion_matrix_true, labels2, count_pairs, norm_row]

/-- C2 (amended): when the row-sum asserts do pass, a model that never
predicts positive (no predicted-true pairs) gets precision NaN — the explicit
undefined marker `none`, not zero — and recall 0.0, with no exception. -/
theorem precision_undefined_when_never_positive (y_true y_pred : List Bool)
    (row : ImagRow)
    (hok : imag_metrics_row y_true y_pred = .ok row)
    (htp : count_pairs y_true y_pred true true = 0)
    (hfp : count_pairs y_true y_pred false true = 0) :
    row.precision = none ∧ row.recall' = some 0 := by
  cases hm : confusion_matrix_true y_true y_pred with
  | one =>
    unfold imag_metrics_row at hok
    rw [hm] at hok
    cases hok
  | two tn fp fn tp =>
    obtain ⟨h_tn, h_fp, h_fn, h_tp⟩ := confusion_two_eq _ _ _ _ _ _ hm
    have hfp0 : fp = 0 := by rw [h_fp, hfp]; exact norm_row_snd_zero _
    have htp0 : tp = 0 := by rw [h_tp, htp]; exact norm_row_snd_zero _
    unfold imag_metrics_row at hok
    rw [hm] at hok
    by_cases h1 : tn + fp = 1
    swap
    · simp [h1] at hok
    by_cases h2 : fn + tp = 1
    swap
    · simp [h1, h2] at hok
    cases hauc : roc_auc_score y_true y_pred with
    | error e => simp [h1, h2, hauc] at hok
    | ok auc =>
      simp only [h1, h2, hauc, ne_eq, not_true_eq_false, if_false,
        reduceCtorEq] at hok
      have hfn1 : fn = 1 := by rw [htp0] at h2; simpa using h2
      rw [Except.ok.injEq] at hok
      rw [← hok, htp0, hfp0, hfn1]
      constructor
      · simp [nan_div]
      · simp [nan_div]

/-- C2 witness: reference [True, False], model [False, False] — both rows
populated, no positive prediction: the block returns a row whose precision is
the NaN marker and whose recall is 0. -/
theorem precision_undefined_witness :
    imag_metrics_row [true, false] [false, false] =
        .ok ⟨none, some 0, none, 1 / 2, 1 / 2, 0, 1⟩ ∧
      (⟨none, some 0, none, 1 / 2, 1 / 2, 0, 1⟩ : ImagRow).precision = none ∧
      (⟨none, some 0, none, 1 / 2, 1 / 2, 0, 1⟩ : ImagRow).recall' = some 0 := by
  have hok : imag_metrics_row [true, false] [false, false] =
      .ok ⟨none, some 0, none, 1 / 2, 1 / 2, 0, 1⟩ := by
    simp [imag_metrics_row, confusion_matrix_true, labels2, count_pairs,
      norm_row, nan_div, f1_of, accuracy_score, roc_auc_score]
  exact ⟨hok,
    precision_undefined_when_never_positive [true, false] [false, false]
      ⟨none, some 0, none, 1 / 2, 1 / 2, 0, 1⟩ hok (by decide) (by decide)⟩

/-- C3 counterexample: for reference [True, True] and model [False, True] the
false row has zero true-condition samples; its normalized entries are the
`nan_to_num`-coerced zeros `(0, 0)` — not an undefined marker — and the
pipeline then raises an AssertionError on the row-sum check. -/
theorem confusion_empty_row_zeros :
    confusion_matrix_true [true, true] [false, true] = .two 0 0 (1 / 2) (1 / 2) ∧
      imag_metrics_row [true, true] [false, true] =
        .error "AssertionError: tn + fp != 1" := by
  constructor
  · simp [confusion_matrix_true, labels2, count_pairs, norm_row]
    norm_num
  · simp [imag_metrics_row, confusion_matrix_true, labels2, count_pairs, norm_row]

/-- C3 (amended): under by-true-row normalization every populated row sums to
exactly 1; a row with zero true-condition samples is coerced to zeros
(`nan_to_num`), and the per-model block then raises an AssertionError instead
of producing an undefined marker. -/
theorem confusion_row_sums (y_true y_pred : List Bool) (tn fp fn tp : ℚ)
    (h : confusion_matrix_true y_true y_pred = .two tn fp fn tp) :
    (count_pairs y_true y_pred false false + count_pairs y_true y_pred false true ≠ 0 →
      tn + fp = 1) ∧
    (count_pairs y_true y_pred true false + count_pairs y_true y_pred true true ≠ 0 →
      fn + tp = 1) ∧
    (count_pairs y_true y_pred false false + count_pairs y_true y_pred false true = 0 →
      tn = 0 ∧ fp = 0 ∧ ∃ msg, imag_metrics_row y_true y_pred = .error msg) ∧
    (count_pairs y_true y_pred true false + count_pairs y_true y_pred true true = 0 →
      fn = 0 ∧ tp = 0 ∧ ∃ msg, imag_metrics_row y_true y_pred = .error msg) := by
  obtain ⟨h_tn, h_fp, h_fn, h_tp⟩ := confusion_two_eq _ _ _ _ _ _ h
  refine ⟨?_, ?_, ?_, ?_⟩
  · intro hne
    rw [h_tn, h_fp]
    exact norm_row_sum _ _ hne
  · intro hne
    rw [h_fn, h_tp]
    exact norm_row_sum _ _ hne
  · intro hz
    have hz0 := norm_row_zero _ _ hz
    have htn0 : tn = 0 := by rw [h_tn, hz0]
    have hfp0 : fp = 0 := by rw [h_fp, hz0]
    refine ⟨htn0, hfp0, "AssertionError: tn + fp != 1", ?_⟩
    unfold imag_metrics_row
    rw [h]
    have : tn + fp ≠ 1 := by rw [htn0, hfp0]; norm_num
    simp [this]
  · intro hz
    have hz0 := norm_row_zero _ _ hz
    have hfn0 : fn = 0 := by rw [h_fn, hz0]
    have htp0 : tp = 0 := by rw [h_tp, hz0]
    by_cases h1 : tn + fp = 1
    · refine ⟨hfn0, htp0, "AssertionError: fn + tp != 1", ?_⟩
      unfold imag_metrics_row
      rw [h]
      have h2 : fn + tp ≠ 1 := by rw [hfn0, htp0]; norm_num
      simp [h1, h2]
    · refine ⟨hfn0, htp0, "AssertionError: tn + fp != 1", ?_⟩
      unfold imag_metrics_row
      rw [h]
      simp [h1]

/-- C3 witness: reference [True, False], model [True, False]: both rows
populated, each normalized row sums to 1. -/
theorem confusion_row_sums_witness :
    (count_pairs [true, false] [true, false] false false +
        count_pairs [true, false] [true, false] false true ≠ 0 → (1 : ℚ) + 0 = 1) ∧
    (count_pairs [true, false] [true, false] true false +
        count_pairs [true, false] [true, false] true true ≠ 0 → (0 : ℚ) + 1 = 1) ∧
    (count_pairs [true, false] [true, false] false false +
        count_pairs [true, false] [true, false] false true = 0 →
      (1 : ℚ) = 0 ∧ (0 : ℚ) = 0 ∧
        ∃ msg, imag_metrics_row [true, false] [true, false] = .error msg) ∧
    (count_pairs [true, false] [true, false] true false +
        count_pairs [true, false] [true, false] true true = 0 →
      (0 : ℚ) = 0 ∧ (1 : ℚ) = 0 ∧
        ∃ msg, imag_metrics_row [true, false] [true, false] = .error msg) :=
  confusion_row_sums [true, false] [true, false] 1 0 0 1
    (by simp [confusion_matrix_true, labels2, count_pairs, norm_row])

theorem filterMap_abs_sub (dft model : String → Option ℚ) (idx : List String) :
    (idx.map (fun i => (series_sub dft model i).map (fun q => |q|))).filterMap id =
      (both_present dft model idx).map (fun p => |p.1 - p.2|) := by
  induction idx with
  | nil => rfl
  | cons i rest ih =>
    cases hd : dft i <;> cases hm : model i <;>
      simp [series_sub, both_present, hd, hm] at ih ⊢ <;> exact ih

theorem series_values_not_nan_fst (dft model : String → Option ℚ)
    (idx : List String) :
    series_values dft (not_nan_idx dft model idx) =
      (both_present dft model idx).map (fun p => p.1) := by
  induction idx with
  | nil => rfl
  | cons i rest ih =>
    cases hd : dft i <;> cases hm : model i <;>
      simp [series_values, not_nan_idx, series_sub, both_present, hd, hm]
        at ih ⊢ <;> exact ih

theorem series_values_not_nan_snd (dft model : String → Option ℚ)
    (idx : List String) :
    series_values model (not_nan_idx dft model idx) =
      (both_present dft model idx).map (fun p => p.2) := by
  induction idx with
  | nil => rfl
  | cons i rest ih =>
    cases hd : dft i <;> cases hm : model i <;>
      simp [series_values, not_nan_idx, series_sub, both_present, hd, hm]
        at ih ⊢ <;> exact ih

/-- C4: the regression loop's MAE equals the spec's
`mean(|reference − model|)` over exactly the materials where both sides are
present; its R² is `r2_score` of the two series restricted to exactly that
intersection (missing materials are excluded, never zero-filled); and on the
fixture reference [1, 2, 3] vs model [1.5, 2, 2] the MAE is 0.5. -/
theorem regression_metrics_exclude_missing :
    (∀ (dft model : String → Option ℚ) (idx : List String),
        ph_freq_mae dft model idx = spec_mae dft model idx) ∧
      (∀ (dft model : String → Option ℚ) (idx : List String),
        ph_freq_r2 dft model idx =
          r2_score ((both_present dft model idx).map (fun p => p.1))
            ((both_present dft model idx).map (fun p => p.2))) ∧
      ph_freq_mae regr_dft regr_model regr_idx = some (1 / 2) := by
  refine ⟨fun dft model idx => ?_, fun dft model idx => ?_, ?_⟩
  · simp only [ph_freq_mae, nanmean, spec_mae, filterMap_abs_sub]
  · simp only [ph_freq_r2, series_values_not_nan_fst, series_values_not_nan_snd]
  · simp [ph_freq_mae, nanmean, series_sub, regr_dft, regr_model, regr_idx]
    norm_num [abs_of_nonneg]

/-- C9: the auxiliary export's rows are the material ids sorted ascending by
the numeric suffix of the id (as a permutation of the input — nothing added
or dropped), and its column order is the fixed source-order selection, so it
is identical across runs. -/
theorem mp_ids_export_sorted :
    (∀ ids : List String,
        List.Sorted by_num_key (mp_ids_export ids).1 ∧
          (mp_ids_export ids).1.Pairwise (fun a b => ∀ na nb,
            mp_id_num a = some na → mp_id_num b = some nb → na ≤ nb) ∧
          List.Perm (mp_ids_export ids).1 ids) ∧
      ∀ ids : List String,
        (mp_ids_export ids).2 = [Key.formula, Key.supercell, Key.n_sites] := by
  refine ⟨fun ids => ⟨?_, ?_, ?_⟩, fun ids => rfl⟩
  · exact List.sorted_insertionSort by_num_key ids
  · refine (List.sorted_insertionSort by_num_key ids).imp ?_
    intro a b hab na nb ha hb
    have hk : mp_id_key a ≤ mp_id_key b := hab
    simpa [mp_id_key, ha, hb] using hk
  · exact List.perm_insertionSort by_num_key ids

end Ffonons
